import Mathlib

/-!
Shallow embedding of the petrophysical interpretation engine of
`las_analysis.py` (class `PetrophysicalAnalyzer`), together with theorems
settling the specification claims about it.

Conventions of the embedding:
* pandas float series become per-sample functions over `ℝ` (or `ℚ` where the
  computation is exact rational arithmetic), with missing readings (`NaN`)
  modelled as `Option` values where a claim depends on them;
* sequential boolean-mask assignments on a series (`s[mask] = v`) become the
  corresponding overwrite semantics on a per-sample `Option` value: a later
  assignment whose mask holds replaces the value written by an earlier one;
* methods that "skip" by returning `None` become `Option`-valued functions.
-/

namespace LasAnalysis

/-! ## Photoelectric-factor lithology (`_photoelectric_lithology`)

The source holds `pe_ranges`, an insertion-ordered table of six mineral
ranges, and runs
`for mineral, (pe_min, pe_max) in pe_ranges.items(): lithology[mask] = mineral`
where `mask = (pe_data >= pe_min) & (pe_data <= pe_max)`; afterwards
`lithology[lithology.isnull()] = 'Unknown'`. -/

/-- The `pe_ranges` table of `_photoelectric_lithology`, in its declared
(insertion) order. -/
def peRanges : List (String × ℚ × ℚ) :=
  [("Quartz/Sandstone", 1.8, 1.9),
   ("Calcite/Limestone", 5.0, 5.2),
   ("Dolomite", 3.0, 3.2),
   ("Clay/Shale", 2.8, 3.3),
   ("Anhydrite", 5.0, 5.1),
   ("Salt", 4.6, 4.8)]

/-- The membership mask `(pe_data >= pe_min) & (pe_data <= pe_max)` for one
table entry, at one sample value. -/
def peInRange (p : ℚ) (e : String × ℚ × ℚ) : Bool :=
  decide (e.2.1 ≤ p) && decide (p ≤ e.2.2)

/-- The loop over `pe_ranges.items()`: each mineral whose range contains the
sample value overwrites whatever an earlier iteration wrote. -/
def peScan (p : ℚ) : Option String :=
  peRanges.foldl (fun acc e => if peInRange p e then some e.1 else acc) none

/-- Per-sample result of `_photoelectric_lithology`: the scan's value, with
still-null samples set to `"Unknown"`. -/
def peLithology (p : ℚ) : String :=
  (peScan p).getD "Unknown"

/-- The spec's wording of the classification: the FIRST matching range in the
table's declared order wins; no match gives `"Unknown"`. -/
def peFirstMatch (p : ℚ) : String :=
  ((peRanges.find? (fun e => peInRange p e)).map (fun e => e.1)).getD "Unknown"

/-- The amended wording: the LAST matching range in the table's declared order
wins; no match gives `"Unknown"`. -/
def peLastMatch (p : ℚ) : String :=
  ((peRanges.reverse.find? (fun e => peInRange p e)).map (fun e => e.1)).getD "Unknown"

/-! ## Data-quality assessor (`data_quality_assessment`)

Outlier detection: for every numeric column the source computes
`Q1 = col.quantile(0.25)`, `Q3 = col.quantile(0.75)`, `IQR = Q3 - Q1` and
counts values outside `[Q1 - 1.5*IQR, Q3 + 1.5*IQR]`; NaN compares false on
both sides, so only valid values can be counted.  pandas `quantile` drops
nulls, sorts, and linearly interpolates at position `(n-1)*q`. -/

/-- Insert a rational into an ascending sorted list. -/
def insertSorted (x : ℚ) : List ℚ → List ℚ
  | [] => [x]
  | y :: ys => if x ≤ y then x :: y :: ys else y :: insertSorted x ys

/-- Insertion sort, ascending. -/
def sortQ (l : List ℚ) : List ℚ :=
  l.foldr insertSorted []

/-- pandas linear-interpolation quantile over an ascending sorted list:
position `h = (n-1)*q`, value `s[i] + (h-i)*(s[i+1]-s[i])` with `i = ⌊h⌋`
(the upper neighbour is dropped when `i` is the last index).  Empty data
gives `none` (pandas `NaN`). -/
def quantileSorted (s : List ℚ) (q : ℚ) : Option ℚ :=
  match s with
  | [] => none
  | _ =>
    let h : ℚ := ((s.length : ℚ) - 1) * q
    let i : ℕ := (Int.toNat ⌊h⌋)
    match s.get? i, s.get? (i + 1) with
    | some a, some b => some (a + (h - (i : ℚ)) * (b - a))
    | some a, none => some a
    | none, _ => none

/-- `Series.quantile(q)` of a column with nulls: drop nulls, sort,
interpolate. -/
def colQuantile (col : List (Option ℚ)) (q : ℚ) : Option ℚ :=
  quantileSorted (sortQ (col.filterMap id)) q

/-- The IQR outlier count of `data_quality_assessment` for one column: it is
computed unconditionally — there is no minimum-valid-count guard in the
source.  When the quantiles are null (fully-null column) every comparison is
false and the count is `0`. -/
def outlierCount (col : List (Option ℚ)) : ℕ :=
  match colQuantile col (1/4), colQuantile col (3/4) with
  | some q1, some q3 =>
    let iqr := q3 - q1
    (col.filterMap id).countP
      (fun x => decide (x < q1 - 3/2 * iqr) || decide (q3 + 3/2 * iqr < x))
  | _, _ => 0

/-! ## Lithology-method dispatch and the clustering guards
(`lithology_identification`, `_ml_lithology_clustering`)

The store is modelled as the list of curve (column) names present plus the
rows, each row an association list from curve name to its (present) value —
a key absent from a row is that row's null for that curve.  Every parsed LAS
column is numeric, so the numeric-column count of the source is the column
count here. -/

structure Store where
  columns : List String
  rows : List (List (String × ℚ))

/-- The fixed candidate curve set of `_ml_lithology_clustering`. -/
def candidateCurves : List String :=
  ["GGCE", "NPRL", "DEN", "PDPE", "RTAT"]

/-- `analysis_curves`: the candidate curves present in the store, in candidate
order. -/
def Store.analysisCurves (s : Store) : List String :=
  candidateCurves.filter (fun c => s.columns.contains c)

/-- A row survives `df[analysis_curves].dropna()` iff it has a value for every
selected curve. -/
def rowHasAll (cs : List String) (r : List (String × ℚ)) : Bool :=
  cs.all (fun c => (r.lookup c).isSome)

/-- `len(ml_data)`: the number of rows valid on every selected candidate
curve. -/
def Store.mlDataCount (s : Store) : ℕ :=
  (s.rows.filter (rowHasAll s.analysisCurves)).length

/-- `_ml_lithology_clustering` up to its guards: `None` when fewer than two
candidate curves are present or fewer than 10 joint valid rows exist;
otherwise the clustering runs (its labels are irrelevant to the claims and
are abstracted to `Unit`). -/
def mlClustering (s : Store) : Option Unit :=
  if s.analysisCurves.length < 2 then none
  else if s.mlDataCount < 10 then none
  else some ()

/-- The caller gate in `lithology_identification`: method 4 is invoked only
when the frame has at least 3 numeric columns; otherwise its result key is
absent. -/
def mlClusteringEntry (s : Store) : Option (Option Unit) :=
  if 3 ≤ s.columns.length then some (mlClustering s) else none

/-- The clustering method "runs" when the pipeline both invokes it and it
passes its own guards. -/
def mlRuns (s : Store) : Prop :=
  mlClusteringEntry s = some (some ())

instance (s : Store) : Decidable (mlRuns s) := by
  unfold mlRuns; infer_instance

/-- Method 1 dispatch: the gamma-ray method is invoked iff a `GGCE` or `GR`
column is present. -/
def gammaRayEntry (s : Store) : Option Unit :=
  if s.columns.contains "GGCE" || s.columns.contains "GR" then some () else none

/-- `len(valid_data)` for the neutron-density method: rows valid on both
`NPRL` and `DEN`. -/
def Store.ndValidCount (s : Store) : ℕ :=
  (s.rows.filter (rowHasAll ["NPRL", "DEN"])).length

/-- `_neutron_density_lithology` up to its guard: `None` when no joint valid
rows exist. -/
def neutronDensityMethod (s : Store) : Option Unit :=
  if s.ndValidCount = 0 then none else some ()

/-- Method 2 dispatch: invoked iff both `NPRL` and `DEN` are present. -/
def neutronDensityEntry (s : Store) : Option (Option Unit) :=
  if s.columns.contains "NPRL" && s.columns.contains "DEN" then
    some (neutronDensityMethod s)
  else none

/-- Method 3 dispatch: invoked iff `PDPE` is present. -/
def photoelectricEntry (s : Store) : Option Unit :=
  if s.columns.contains "PDPE" then some () else none

/-- A store holding exactly the two candidate curves `NPRL` and `DEN` with ten
fully valid rows: two candidate curves present and ten joint samples, yet only
two numeric columns. -/
def twoColStore : Store :=
  ⟨["NPRL", "DEN"], List.replicate 10 [("NPRL", 20), ("DEN", 2)]⟩

/-! ## Net-to-gross (`_calculate_net_to_gross`)

`net_flag = gr < 75` is false at nulls, `total = len(gr) * 0.5` counts every
sample, `net = net_flag.sum() * 0.5`, and the ratio divides the two (or is `0`
for an empty store). -/

/-- The per-sample net flag: a null gamma-ray sample is never net. -/
def netFlag (x : Option ℚ) : Bool :=
  match x with
  | some g => decide (g < 75)
  | none => false

/-- `net_thickness = net_flag.sum() * 0.5`. -/
def netThickness (gr : List (Option ℚ)) : ℚ :=
  ((gr.countP netFlag : ℕ) : ℚ) * 0.5

/-- `total_thickness = len(gr) * 0.5`. -/
def grossThickness (gr : List (Option ℚ)) : ℚ :=
  ((gr.length : ℕ) : ℚ) * 0.5

/-- `ntg_ratio = net_thickness / total_thickness if total_thickness > 0 else
0`. -/
def netToGross (gr : List (Option ℚ)) : ℚ :=
  if 0 < grossThickness gr then netThickness gr / grossThickness gr else 0

/-! ## Real-valued formulas

The remaining methods work with irrational operations (square roots, real
exponentials), so they are embedded over `ℝ`. -/

noncomputable section

/-- pandas `Series.clip(lo, hi)`, per sample. -/
def rclip (x lo hi : ℝ) : ℝ :=
  min (max x lo) hi

/-! ### Porosity (`_calculate_porosity`) -/

/-- `rho_matrix = 2.65` (sandstone default). -/
def rhoMatrix : ℝ := 2.65

/-- `rho_fluid = 1.0` (water). -/
def rhoFluid : ℝ := 1.0

/-- `phi_density = ((rho_matrix - rhob) / (rho_matrix - rho_fluid)).clip(0, 0.5)`. -/
def phiDensity (rhob : ℝ) : ℝ :=
  rclip ((rhoMatrix - rhob) / (rhoMatrix - rhoFluid)) 0 0.5

/-- `phi_neutron = (NPRL / 100).clip(0, 0.5)`. -/
def phiNeutron (nprl : ℝ) : ℝ :=
  rclip (nprl / 100) 0 0.5

/-- `phi_combined = (phi_density + phi_neutron) / 2`. -/
def phiCombined (nprl rhob : ℝ) : ℝ :=
  (phiDensity rhob + phiNeutron nprl) / 2

/-- `gas_flag = phi_neutron < (phi_density - 0.04)`. -/
def gasFlag (nprl rhob : ℝ) : Prop :=
  phiNeutron nprl < phiDensity rhob - 0.04

/-- `phi_corrected`: `phi_combined` with flagged samples replaced by
`phi_density`. -/
def phiCorrected (nprl rhob : ℝ) : ℝ :=
  if phiNeutron nprl < phiDensity rhob - 0.04 then phiDensity rhob
  else phiCombined nprl rhob

/-! ### Water saturation (`_calculate_water_saturation`) -/

/-- `rw = 0.1` (formation water resistivity). -/
def archieRw : ℝ := 0.1

/-- `a = 1.0` (tortuosity factor). -/
def archieA : ℝ := 1.0

/-- `m = 2.0` (cementation exponent). -/
def archieM : ℝ := 2.0

/-- `n = 2.0` (saturation exponent). -/
def archieN : ℝ := 2.0

/-- `F = a / (phi ** m)`. -/
def formationFactor (phi : ℝ) : ℝ :=
  archieA / phi ^ archieM

/-- `sw` before clipping: `((rw * F) / rt) ** (1/n)`. -/
def swRaw (phi rt : ℝ) : ℝ :=
  ((archieRw * formationFactor phi) / rt) ^ (1 / archieN)

/-- `sw = (((rw * F) / rt) ** (1/n)).clip(0, 1)`. -/
def waterSaturation (phi rt : ℝ) : ℝ :=
  rclip (swRaw phi rt) 0 1

/-- `sh = 1 - sw`. -/
def hydrocarbonSaturation (phi rt : ℝ) : ℝ :=
  1 - waterSaturation phi rt

/-! ### Gamma-ray lithology (`_gamma_ray_lithology`)

In the source the clean-sand and shale baselines are the 5th and 95th
percentiles of the curve (`gr_data.quantile(0.05)` / `quantile(0.95)`); the
per-sample pipeline below takes those two baselines as its first arguments. -/

/-- `gr_normalized = ((g - gr_clean) / (gr_shale - gr_clean)).clip(0, 1)`. -/
def grNormalized (grClean grShale g : ℝ) : ℝ :=
  rclip ((g - grClean) / (grShale - grClean)) 0 1

/-- Larionov tertiary-rock shale fraction `0.083 * (2**(3.7 * G) - 1)`. -/
def vShaleTertiary (G : ℝ) : ℝ :=
  0.083 * ((2 : ℝ) ^ (3.7 * G) - 1)

/-- Larionov older-rock shale fraction `0.33 * (2**(2 * G) - 1)`. -/
def vShaleOlder (G : ℝ) : ℝ :=
  0.33 * ((2 : ℝ) ^ (2 * G) - 1)

/-- The three sequential mask assignments on `lithology`, per sample: the
masks `v < 0.15`, `0.15 ≤ v < 0.5`, `0.5 ≤ v` are written in that order, a
later hit overwriting an earlier one, and an unhit sample stays null. -/
def grLabel (v : ℝ) : Option String :=
  if 0.5 ≤ v then some "Shale"
  else if 0.15 ≤ v ∧ v < 0.5 then some "Shaly Sandstone"
  else if v < 0.15 then some "Clean Sandstone"
  else none

/-- Per-sample result record of `_gamma_ray_lithology`: the label and both
retained shale-fraction estimates. -/
structure GrResult where
  label : Option String
  vTertiary : ℝ
  vOlder : ℝ

/-- `_gamma_ray_lithology` per sample: normalize, compute both Larionov
estimates, classify on the tertiary one. -/
def gammaRayResult (grClean grShale g : ℝ) : GrResult :=
  { label := grLabel (vShaleTertiary (grNormalized grClean grShale g))
    vTertiary := vShaleTertiary (grNormalized grClean grShale g)
    vOlder := vShaleOlder (grNormalized grClean grShale g) }

/-! ### Neutron-density lithology (`_neutron_density_lithology`) -/

/-- Head of the `matrices` table: `'Sandstone': {'nphi': 0.0, 'rhob': 2.65}`. -/
def ndHead : String × ℝ × ℝ := ("Sandstone", 0, 2.65)

/-- Tail of the `matrices` table, in declared order. -/
def ndTail : List (String × ℝ × ℝ) :=
  [("Limestone", 0, 2.71), ("Dolomite", 0, 2.87), ("Anhydrite", 0, 2.96)]

/-- The full `matrices` table of `_neutron_density_lithology`. -/
def ndMatrices : List (String × ℝ × ℝ) :=
  ndHead :: ndTail

/-- The source's distance to a matrix point:
`sqrt((nphi - m.nphi)**2 + (rhob - m.rhob)**2 * 0.1)` (the squared density
difference is down-weighted by `0.1`). -/
def ndDist (nphi rhob : ℝ) (e : String × ℝ × ℝ) : ℝ :=
  Real.sqrt ((nphi - e.2.1) ^ 2 + (rhob - e.2.2) ^ 2 * 0.1)

/-- The spec's wording of the same metric: the density DISTANCE weighted by
`0.1`, i.e. `sqrt((nphi - m.nphi)^2 + (0.1 * (rhob - m.rhob))^2)`. -/
def ndDistSpec (nphi rhob : ℝ) (e : String × ℝ × ℝ) : ℝ :=
  Real.sqrt ((nphi - e.2.1) ^ 2 + (0.1 * (rhob - e.2.2)) ^ 2)

/-- Python `min(keys, key=distance)`: fold keeping the current best, replacing
it only on a strictly smaller key, so the first minimum wins ties. -/
def argminBy {α : Type} (f : α → ℝ) (b : α) : List α → α
  | [] => b
  | e :: es => argminBy f (if f e < f b then e else b) es

/-- `min(distances.keys(), key=...)` over the matrices table. -/
def ndNearest (nphi rhob : ℝ) : String × ℝ × ℝ :=
  argminBy (ndDist nphi rhob) ndHead ndTail

/-- `_neutron_density_lithology` per sample (`nphiRaw` is the raw `NPRL`
value, divided by 100 in the method): nearest-matrix label, overwritten by
`'Gas Sand'` when `rhob < 2.3` and the neutron fraction is below `0.15`. -/
def ndLithology (nphiRaw rhob : ℝ) : String :=
  if rhob < 2.3 ∧ nphiRaw / 100 < 0.15 then "Gas Sand"
  else (ndNearest (nphiRaw / 100) rhob).1

end

/-! ## Helper lemmas -/

/-- `find?` over an appended list: the left part is searched first. -/
theorem find_append {α : Type} (p : α → Bool) :
    ∀ (l₁ l₂ : List α), (l₁ ++ l₂).find? p = ((l₁.find? p).elim (l₂.find? p) some) := by
  intro l₁ l₂
  induction l₁ with
  | nil => rfl
  | cons a t ih =>
    cases hpa : p a <;> simp [List.find?, hpa, ih]

/-- The overwrite fold of `_photoelectric_lithology` keeps the LAST entry
whose mask holds: it equals a first-match search over the reversed table. -/
theorem scan_overwrite (p : ℚ) :
    ∀ (l : List (String × ℚ × ℚ)) (init : Option String),
      l.foldl (fun acc e => if peInRange p e then some e.1 else acc) init
        = (l.reverse.find? (fun e => peInRange p e)).elim init (fun e => some e.1) := by
  intro l
  induction l with
  | nil => intro init; rfl
  | cons a t ih =>
    intro init
    simp only [List.foldl_cons, List.reverse_cons]
    rw [ih, find_append]
    cases hf : t.reverse.find? (fun e => peInRange p e) <;>
      cases hpa : peInRange p a <;> simp [List.find?, hpa, hf]

/-- A clipped value lies in the clip interval. -/
theorem rclip_mem {x lo hi : ℝ} (h : lo ≤ hi) :
    lo ≤ rclip x lo hi ∧ rclip x lo hi ≤ hi := by
  unfold rclip
  constructor
  · exact le_min (le_max_right x lo) h
  · exact min_le_right _ _

/-- The fold behind Python `min(keys, key=f)` returns an element of the
scanned list (initial element included). -/
theorem argminBy_mem {α : Type} (f : α → ℝ) :
    ∀ (l : List α) (b : α), argminBy f b l ∈ b :: l := by
  intro l
  induction l with
  | nil => intro b; simp [argminBy]
  | cons e es ih =>
    intro b
    have h := ih (if f e < f b then e else b)
    rw [List.mem_cons] at h
    rcases h with h | h
    · rw [argminBy, h]
      split_ifs <;> simp
    · simp [argminBy, List.mem_cons, h]

/-- The fold behind Python `min(keys, key=f)` minimizes `f` over the scanned
list. -/
theorem argminBy_le {α : Type} (f : α → ℝ) :
    ∀ (l : List α) (b : α), ∀ x ∈ b :: l, f (argminBy f b l) ≤ f x := by
  intro l
  induction l with
  | nil =>
    intro b x hx
    rw [List.mem_singleton] at hx
    rw [hx, argminBy]
  | cons e es ih =>
    intro b x hx
    have hb : f (if f e < f b then e else b) ≤ f b := by
      split_ifs with h
      · exact le_of_lt h
      · exact le_refl _
    have he : f (if f e < f b then e else b) ≤ f e := by
      split_ifs with h
      · exact le_refl _
      · exact le_of_not_lt h
    have hmin := ih (if f e < f b then e else b)
    have hself : f (argminBy f b (e :: es)) ≤ f (if f e < f b then e else b) := by
      rw [argminBy]
      exact hmin _ (List.mem_cons_self _ _)
    rw [List.mem_cons, List.mem_cons] at hx
    rcases hx with rfl | rfl | hx
    · exact le_trans hself hb
    · exact le_trans hself he
    · rw [argminBy]
      exact hmin _ (List.mem_cons_of_mem _ hx)

/-- Every matrix reference point of the neutron-density table has neutron
coordinate `0`. -/
theorem ndMatrices_fst_zero : ∀ e ∈ ndMatrices, e.2.1 = 0 := by
  intro e he
  simp [ndMatrices, ndHead, ndTail, List.mem_cons] at he
  rcases he with rfl | rfl | rfl | rfl <;> rfl

/-- Between two reference points with the same neutron coordinate, the
source's metric (squared density difference weighted `0.1`) and the spec's
wording of it (density difference weighted `0.1` before squaring) order the
points the same way. -/
theorem ndDistSpec_mono (nphi rhob : ℝ) (e1 e2 : String × ℝ × ℝ)
    (hfst : e1.2.1 = e2.2.1)
    (h : ndDist nphi rhob e1 ≤ ndDist nphi rhob e2) :
    ndDistSpec nphi rhob e1 ≤ ndDistSpec nphi rhob e2 := by
  unfold ndDist at h
  unfold ndDistSpec
  rw [hfst] at h ⊢
  have hy : (0:ℝ) ≤ (nphi - e2.2.1) ^ 2 + (rhob - e2.2.2) ^ 2 * 0.1 := by positivity
  have harg := (Real.sqrt_le_sqrt_iff hy).mp h
  apply Real.sqrt_le_sqrt
  nlinarith [harg]

/-! ## Claim theorems -/

/-- Claim C1, counterexample: at PE value `3.1`, which lies in both the
Dolomite range `[3.0, 3.2]` and the Clay/Shale range `[2.8, 3.3]`, the code
assigns `"Clay/Shale"` while the first matching range in declared order is
Dolomite — so the first-match rule of the claim does not describe the code. -/
theorem pe_first_match_refuted :
    peLithology 3.1 = "Clay/Shale" ∧ peFirstMatch 3.1 = "Dolomite" := by
  constructor
  · norm_num [peLithology, peScan, peRanges, peInRange, List.foldl]
  · norm_num [peFirstMatch, peRanges, peInRange, List.find?]

/-- Claim C1, amended: for every sample, the photoelectric classification
assigns the label of the LAST matching range in the table's declared order
(Quartz/Sandstone, Calcite/Limestone, Dolomite, Clay/Shale, Anhydrite, Salt),
and `"Unknown"` when no range matches — the successive mask assignments
overwrite earlier matches. -/
theorem pe_lithology_eq_last_match (p : ℚ) :
    peLithology p = peLastMatch p := by
  unfold peLithology peLastMatch peScan
  rw [scan_overwrite]
  cases peRanges.reverse.find? (fun e => peInRange p e) <;> rfl

/-- Claim C3 (code-bug evidence): the quality assessor computes quartiles and
an outlier count even for degenerate curves.  For a curve with only the three
valid values `0, 1, 100` it computes interpolated quartiles `Q1 = 1/2`,
`Q3 = 101/2` and an outlier count of `0`; for a fully-null curve the
quantiles are null and the count is `0`.  No minimum-valid-count guard and no
insufficient-data report exist in the source. -/
theorem outliers_computed_on_degenerate_curve :
    colQuantile [some 0, some 1, some 100] (1/4) = some (1/2) ∧
    colQuantile [some 0, some 1, some 100] (3/4) = some (101/2) ∧
    outlierCount [some 0, some 1, some 100] = 0 ∧
    colQuantile [none, none] (1/4) = none ∧
    outlierCount [none, none] = 0 := by
  refine ⟨?_, ?_, ?_, ?_, ?_⟩
  · norm_num [colQuantile, quantileSorted, sortQ, insertSorted, List.foldr,
      List.filterMap, List.get?]
  · norm_num [colQuantile, quantileSorted, sortQ, insertSorted, List.foldr,
      List.filterMap, List.get?]
  · norm_num [outlierCount, colQuantile, quantileSorted, sortQ, insertSorted,
      List.foldr, List.filterMap, List.get?, List.countP, List.countP.go]
  · norm_num [colQuantile, quantileSorted, sortQ, List.filterMap]
  · norm_num [outlierCount, colQuantile, quantileSorted, sortQ, List.filterMap]

/-- Claim C2 (code-bug evidence): with finite inputs `NPRL = 0`,
`DEN = 2.65` the corrected porosity fed into the Archie formation factor
`F = a / phi ** m` is exactly `0` — the clip to `[0, 0.5]` keeps `0`
attainable, so the division by zero in `_calculate_water_saturation` is
reachable, contrary to the claimed guard. -/
theorem corrected_porosity_zero_reachable :
    phiCorrected 0 2.65 = 0 := by
  unfold phiCorrected phiCombined phiNeutron phiDensity rclip rhoMatrix rhoFluid
  norm_num

/-- Claim C4: for every finite density/neutron input pair, the density,
neutron, combined and gas-corrected porosities all lie in `[0, 0.5]`, and the
gas correction replaces the combined value with the density porosity exactly
at samples where `phi_neutron < phi_density - 0.04` (the `gas_flag`). -/
theorem porosity_range_and_gas_correction (nprl rhob : ℝ) :
    (0 ≤ phiDensity rhob ∧ phiDensity rhob ≤ 0.5) ∧
    (0 ≤ phiNeutron nprl ∧ phiNeutron nprl ≤ 0.5) ∧
    (0 ≤ phiCombined nprl rhob ∧ phiCombined nprl rhob ≤ 0.5) ∧
    (0 ≤ phiCorrected nprl rhob ∧ phiCorrected nprl rhob ≤ 0.5) ∧
    (gasFlag nprl rhob → phiCorrected nprl rhob = phiDensity rhob) ∧
    (¬ gasFlag nprl rhob → phiCorrected nprl rhob = phiCombined nprl rhob) := by
  have hD : 0 ≤ phiDensity rhob ∧ phiDensity rhob ≤ 0.5 :=
    rclip_mem (by norm_num : (0:ℝ) ≤ 0.5)
  have hN : 0 ≤ phiNeutron nprl ∧ phiNeutron nprl ≤ 0.5 :=
    rclip_mem (by norm_num : (0:ℝ) ≤ 0.5)
  have hC : 0 ≤ phiCombined nprl rhob ∧ phiCombined nprl rhob ≤ 0.5 := by
    unfold phiCombined
    constructor
    · linarith [hD.1, hN.1]
    · linarith [hD.2, hN.2]
  refine ⟨hD, hN, hC, ?_, ?_, ?_⟩
  · unfold phiCorrected
    split_ifs with hg
    · exact hD
    · exact hC
  · intro hg
    unfold gasFlag at hg
    unfold phiCorrected
    rw [if_pos hg]
  · intro hg
    unfold gasFlag at hg
    unfold phiCorrected
    rw [if_neg hg]

/-- Witness for C4 at the concrete gas-affected sample `NPRL = 10`,
`DEN = 2.2`: the flag holds there and the corrected porosity equals the
density porosity. -/
theorem porosity_range_and_gas_correction_witness :
    gasFlag 10 2.2 ∧ phiCorrected 10 2.2 = phiDensity 2.2 := by
  have hflag : gasFlag 10 2.2 := by
    unfold gasFlag phiNeutron phiDensity rclip rhoMatrix rhoFluid
    rw [max_eq_left (by norm_num), min_eq_left (by norm_num),
        max_eq_left (by norm_num), min_eq_left (by norm_num)]
    norm_num
  exact ⟨hflag, (porosity_range_and_gas_correction 10 2.2).2.2.2.2.1 hflag⟩

/-- Claim C5: with `G` the gamma-ray value normalized between the clean-sand
and shale baselines (the curve's 5th/95th percentiles in the source) and
clipped to `[0,1]`, and `V = 0.083 * (2 ** (3.7 * G) - 1)` the tertiary shale
fraction, the sample is labeled Clean Sandstone iff `V < 0.15`, Shaly
Sandstone iff `0.15 ≤ V < 0.50`, Shale iff `0.50 ≤ V`; the older-rock
estimate is retained in the result but the label is a function of the
tertiary estimate alone. -/
theorem gamma_ray_classification_thresholds (grClean grShale g : ℝ) :
    ((gammaRayResult grClean grShale g).label = some "Clean Sandstone" ↔
        (gammaRayResult grClean grShale g).vTertiary < 0.15) ∧
    ((gammaRayResult grClean grShale g).label = some "Shaly Sandstone" ↔
        0.15 ≤ (gammaRayResult grClean grShale g).vTertiary ∧
          (gammaRayResult grClean grShale g).vTertiary < 0.5) ∧
    ((gammaRayResult grClean grShale g).label = some "Shale" ↔
        0.5 ≤ (gammaRayResult grClean grShale g).vTertiary) ∧
    (gammaRayResult grClean grShale g).label
        = grLabel (vShaleTertiary (grNormalized grClean grShale g)) ∧
    (gammaRayResult grClean grShale g).vOlder
        = vShaleOlder (grNormalized grClean grShale g) := by
  set v := vShaleTertiary (grNormalized grClean grShale g) with hv
  have hres : (gammaRayResult grClean grShale g).label = grLabel v := rfl
  have hvt : (gammaRayResult grClean grShale g).vTertiary = v := rfl
  rw [hres, hvt]
  refine ⟨?_, ?_, ?_, rfl, rfl⟩ <;> unfold grLabel <;> split_ifs with h1 h2 h3 <;>
    simp_all
  all_goals linarith

/-- Claim C6: every sample with bulk density below `2.3` and neutron fraction
(raw value over 100) below `0.15` is labeled Gas Sand, whatever the
nearest-matrix distances are. -/
theorem nd_gas_override (nphiRaw rhob : ℝ) (h1 : rhob < 2.3)
    (h2 : nphiRaw / 100 < 0.15) :
    ndLithology nphiRaw rhob = "Gas Sand" := by
  unfold ndLithology
  rw [if_pos ⟨h1, h2⟩]

/-- Witness for C6 at the spec's test point: raw neutron `10` (fraction
`0.10`), density `2.2`. -/
theorem nd_gas_override_witness : ndLithology 10 2.2 = "Gas Sand" :=
  nd_gas_override 10 2.2 (by norm_num) (by norm_num)

/-- Claim C7: a sample not subject to the gas override is labeled with the
reference point of the matrices table minimizing the down-weighted
neutron-density distance; the chosen point simultaneously minimizes the
source's metric (squared density difference weighted `0.1`) and the spec's
reading of it (density difference weighted `0.1` before squaring), since all
reference points share the neutron coordinate `0`. -/
theorem nd_label_nearest_matrix (nphiRaw rhob : ℝ)
    (h : ¬ (rhob < 2.3 ∧ nphiRaw / 100 < 0.15)) :
    ndLithology nphiRaw rhob = (ndNearest (nphiRaw / 100) rhob).1 ∧
    ndNearest (nphiRaw / 100) rhob ∈ ndMatrices ∧
    (∀ e ∈ ndMatrices,
      ndDist (nphiRaw / 100) rhob (ndNearest (nphiRaw / 100) rhob)
        ≤ ndDist (nphiRaw / 100) rhob e) ∧
    (∀ e ∈ ndMatrices,
      ndDistSpec (nphiRaw / 100) rhob (ndNearest (nphiRaw / 100) rhob)
        ≤ ndDistSpec (nphiRaw / 100) rhob e) := by
  have hmem : ndNearest (nphiRaw / 100) rhob ∈ ndMatrices :=
    argminBy_mem (ndDist (nphiRaw / 100) rhob) ndTail ndHead
  have hle : ∀ e ∈ ndMatrices,
      ndDist (nphiRaw / 100) rhob (ndNearest (nphiRaw / 100) rhob)
        ≤ ndDist (nphiRaw / 100) rhob e :=
    fun e he => argminBy_le (ndDist (nphiRaw / 100) rhob) ndTail ndHead e he
  refine ⟨?_, hmem, hle, ?_⟩
  · unfold ndLithology
    rw [if_neg h]
  · intro e he
    exact ndDistSpec_mono _ _ _ _
      ((ndMatrices_fst_zero _ hmem).trans (ndMatrices_fst_zero _ he).symm)
      (hle e he)

/-- Witness for C7 at the concrete sample raw neutron `30`, density `2.66`
(not gas-affected). -/
theorem nd_label_nearest_matrix_witness :
    ndLithology 30 2.66 = (ndNearest (30 / 100) 2.66).1 ∧
    ndNearest (30 / 100) 2.66 ∈ ndMatrices ∧
    (∀ e ∈ ndMatrices,
      ndDist (30 / 100) 2.66 (ndNearest (30 / 100) 2.66)
        ≤ ndDist (30 / 100) 2.66 e) ∧
    (∀ e ∈ ndMatrices,
      ndDistSpec (30 / 100) 2.66 (ndNearest (30 / 100) 2.66)
        ≤ ndDistSpec (30 / 100) 2.66 e) :=
  nd_label_nearest_matrix 30 2.66 (by norm_num)

/-- Claim C8, counterexample: a store holding exactly the two candidate
curves `NPRL` and `DEN` with ten joint valid rows satisfies the claim's two
conditions, yet the pipeline never invokes the clustering method because the
frame has fewer than three numeric columns — its result entry is absent. -/
theorem ml_gate_counterexample :
    2 ≤ twoColStore.analysisCurves.length ∧ 10 ≤ twoColStore.mlDataCount ∧
      mlClusteringEntry twoColStore = none := by
  refine ⟨by decide, by decide, by decide⟩

/-- Claim C8, amended: the clustering method runs exactly when the frame has
at least three numeric columns AND at least two candidate curves are present
AND at least ten valid joint samples exist; and each classification method
whose required curves are absent yields an absent entry (a skip — every
embedded method is a total function, no exception aborts the pass). -/
theorem ml_and_method_gates (s : Store) :
    (mlRuns s ↔
      3 ≤ s.columns.length ∧ 2 ≤ s.analysisCurves.length ∧ 10 ≤ s.mlDataCount) ∧
    (gammaRayEntry s = none ↔
      s.columns.contains "GGCE" = false ∧ s.columns.contains "GR" = false) ∧
    (neutronDensityEntry s = none ↔
      (s.columns.contains "NPRL" && s.columns.contains "DEN") = false) ∧
    (photoelectricEntry s = none ↔ s.columns.contains "PDPE" = false) := by
  refine ⟨?_, ?_, ?_, ?_⟩
  · unfold mlRuns mlClusteringEntry mlClustering
    split_ifs with h1 h2 h3 <;> simp <;> omega
  · unfold gammaRayEntry
    cases hg : s.columns.contains "GGCE" <;> cases hr : s.columns.contains "GR" <;> simp
  · unfold neutronDensityEntry
    cases hn : s.columns.contains "NPRL" <;> cases hd : s.columns.contains "DEN" <;> simp
  · unfold photoelectricEntry
    cases hp : s.columns.contains "PDPE" <;> simp

/-- Claim C9: for every porosity/resistivity pair the clipped water
saturation lies in `[0, 1]` and water plus hydrocarbon saturation is exactly
`1`. -/
theorem saturation_clip_and_sum (phi rt : ℝ) :
    0 ≤ waterSaturation phi rt ∧ waterSaturation phi rt ≤ 1 ∧
      waterSaturation phi rt + hydrocarbonSaturation phi rt = 1 := by
  have h : 0 ≤ waterSaturation phi rt ∧ waterSaturation phi rt ≤ 1 :=
    rclip_mem (by norm_num : (0:ℝ) ≤ 1)
  refine ⟨h.1, h.2, ?_⟩
  unfold hydrocarbonSaturation
  ring

/-- Claim C10: gross thickness counts every sample (nulls included), the net
flag never holds at a null sample, the ratio is net over gross count (so
`b/N`, not `b/v`) and is `0` for an empty store; at the two-sample store
`[some 0, none]` the ratio is `1/2`, not `1`. -/
theorem net_to_gross_characterization (gr : List (Option ℚ)) :
    grossThickness gr = (gr.length : ℚ) * 0.5 ∧
    netThickness gr = ((gr.countP netFlag : ℕ) : ℚ) * 0.5 ∧
    gr.countP netFlag = (gr.filterMap id).countP (fun g => decide (g < 75)) ∧
    netToGross gr
      = (if gr.length = 0 then 0 else (gr.countP netFlag : ℚ) / (gr.length : ℚ)) ∧
    netToGross [] = 0 ∧
    netToGross [some 0, none] = 1/2 := by
  refine ⟨rfl, rfl, ?_, ?_, ?_, ?_⟩
  · induction gr with
    | nil => rfl
    | cons a t ih =>
      cases a <;> simp [List.countP_cons, netFlag, List.filterMap_cons, ih]
  · unfold netToGross netThickness grossThickness
    rcases Nat.eq_zero_or_pos gr.length with h0 | hpos
    · rw [h0]
      norm_num
    · have hlen : (0:ℚ) < (gr.length : ℚ) := by exact_mod_cast hpos
      rw [if_pos (by positivity), if_neg (by omega)]
      rw [mul_div_mul_right _ _ (by norm_num : (0.5:ℚ) ≠ 0)]
  · norm_num [netToGross, grossThickness]
  · norm_num [netToGross, netThickness, grossThickness, netFlag, List.countP,
      List.countP.go]

end LasAnalysis
